import Mathlib

/-!
Verification of the FPL recommendation engine's scoring core.

The Python source is shallowly embedded in Lean: pandas rows become
structures, float arithmetic is idealized as exact rational arithmetic
(`ℚ`), `dict.get` with a default becomes a total function, and absent
values (`None`, `NaN`) become `Option`.
-/

namespace FPL

/-- Case-sensitive substring search on character lists: `containsSub hay
needle` is `true` iff `needle` occurs contiguously inside `hay`. -/
def containsSub : List Char → List Char → Bool
  | [], needle => needle.isEmpty
  | c :: rest, needle => needle.isPrefixOf (c :: rest) || containsSub rest needle

/-- Lower-case a string as a character list (model of `str.lower()`). -/
def lowerChars (s : String) : List Char :=
  s.toList.map Char.toLower

/-- Model of pandas `Series.str.contains(query, case=False)` on one cell:
the stored string `hay` contains `needle` as a case-insensitive substring. -/
def ciContains (hay needle : String) : Bool :=
  containsSub (lowerChars hay) (lowerChars needle)

/-- One scraped recommendation row (`ScraperAggregator.player_data['recommendations']`). -/
structure RecSignal where
  player_name : String
  recommendation_type : String
  sentiment : String
deriving DecidableEq, Repr

/-- One scraped injury row (`ScraperAggregator.player_data['injury_news']`). -/
structure InjurySignal where
  player_name : String
  status : String
deriving DecidableEq, Repr

/-- The aggregator's in-memory store (`ScraperAggregator.player_data`). -/
structure Aggregator where
  recommendations : List RecSignal
  injury_news : List InjurySignal
  lineups : List (String × List String)
deriving DecidableEq, Repr

/-- `sentiment_scores.get(s, 0)` with `sentiment_scores =
{'positive': 1, 'neutral': 0, 'negative': -1}`. -/
def sentimentScore (s : String) : Int :=
  if s = "positive" then 1 else if s = "negative" then -1 else 0

/-- `sentiment_scores[s]` as used by `Series.map`: unknown keys become
`NaN` (modelled `none`) and are skipped by `Series.mean`. -/
def sentimentScoreOpt (s : String) : Option Int :=
  if s = "positive" then some 1
  else if s = "neutral" then some 0
  else if s = "negative" then some (-1)
  else none

/-- `type_weights.get(t, 1.0)` from `get_player_consensus_score`. -/
def typeWeight (t : String) : ℚ :=
  if t = "captain" then 3
  else if t = "essential" then 5/2
  else if t = "transfer" then 2
  else if t = "differential" then 3/2
  else if t = "general" then 1
  else if t = "budget" then 1
  else if t = "avoid" then -2
  else 1

/-- One signal's vote in the weighted sum of `get_player_consensus_score`:
`weight * (sentiment_mult + 1)`. -/
def recContribution (r : RecSignal) : ℚ :=
  typeWeight r.recommendation_type * ((sentimentScore r.sentiment : ℚ) + 1)

/-- The dict returned by `get_player_consensus_score`.  `avg_sentiment` is
`none` when the pandas mean is `NaN` (no known sentiment among matches) or
when the key is absent (the early-return branches). -/
structure ConsensusRecord where
  consensus_score : ℚ
  mention_count : ℕ
  sentiment : String
  avg_sentiment : Option ℚ
deriving DecidableEq, Repr

/-- `ScraperAggregator.get_player_consensus_score`. -/
def getPlayerConsensusScore (agg : Aggregator) (player_name : String) : ConsensusRecord :=
  if agg.recommendations.isEmpty then ⟨0, 0, "neutral", none⟩ else
  let player_recs := agg.recommendations.filter (fun r => ciContains r.player_name player_name)
  if player_recs.isEmpty then ⟨0, 0, "neutral", none⟩ else
  let mention_count := player_recs.length
  let known := player_recs.filterMap (fun r => sentimentScoreOpt r.sentiment)
  let avg_sentiment : Option ℚ :=
    if known.isEmpty then none
    else some (((known.map (fun i => (i : ℚ))).sum) / known.length)
  let weighted_score := (player_recs.map recContribution).sum
  let consensus_score := weighted_score / (max mention_count 1 : ℕ)
  let overall_sentiment :=
    match avg_sentiment with
    | none => "neutral"
    | some a => if a > 3/10 then "positive" else if a < -(3/10) then "negative" else "neutral"
  ⟨consensus_score, mention_count, overall_sentiment, avg_sentiment⟩

/-- `ScraperAggregator.get_injury_status`: status of the first matching
injury row, `none` when there is no match (Python returns `None`). -/
def getInjuryStatus (agg : Aggregator) (player_name : String) : Option String :=
  (agg.injury_news.find? (fun i => ciContains i.player_name player_name)).map (·.status)

/-- `ScraperAggregator.is_expected_to_start`: the queried name occurs
(case-insensitive substring) inside some lineup entry of some team. -/
def isExpectedToStart (agg : Aggregator) (player_name : String) : Bool :=
  agg.lineups.any (fun tl => tl.2.any (fun p => ciContains p player_name))

/-- A row of the prepared players dataframe (`prepare_players_dataframe`),
restricted to the columns the scoring core reads.  `fixtures` is the
player's upcoming fixture-difficulty list (`element-summary` data that
`get_player_fixtures` returns) and `history` the per-match
`(opponent_team, total_points)` pairs that `get_player_history_vs_team`
filters.  Numeric columns are idealized as exact rationals. -/
structure Player where
  id : ℕ
  full_name : String
  team : ℕ
  team_name : String
  position_name : String
  status : String
  now_cost : ℚ
  form_numeric : ℚ
  total_points : ℚ
  ict_index_numeric : ℚ
  selected_by_percent_numeric : ℚ
  fixtures : List ℚ
  history : List (ℕ × ℚ)
deriving DecidableEq, Repr

/-- The `value` column: `now_cost / 10`. -/
def Player.value (p : Player) : ℚ := p.now_cost / 10

/-- The recommender's configuration and per-gameweek inputs:
`use_web_data`, the optional `web_aggregator`, and the current gameweek's
fixtures as `(team_h, team_a)` pairs. -/
structure Env where
  use_web_data : Bool
  web_aggregator : Option Aggregator
  fixtures_gw : List (ℕ × ℕ)
deriving DecidableEq, Repr

/-- The `team_next_opponent` dict built by folding over the gameweek's
fixtures (`m[team_h] = team_a; m[team_a] = team_h`); later fixtures
overwrite earlier entries, hence the recursion prefers the tail. -/
def teamNextOpponent : List (ℕ × ℕ) → ℕ → Option ℕ
  | [], _ => none
  | (h, a) :: rest, t =>
      match teamNextOpponent rest t with
      | some o => some o
      | none => if t = a then some h else if t = h then some a else none

/-- `calculate_fixture_difficulty_score` with `num_fixtures = 5`: average
difficulty over the next (at most) five fixtures, default `3.0` when no
fixture data is available. -/
def calculateFixtureDifficultyScore (p : Player) : ℚ :=
  let fs := p.fixtures.take 5
  if fs.isEmpty then 3 else fs.sum / fs.length

/-- `get_player_history_vs_team`, reduced to the `avg_points` field used
by the callers: mean points over past matches against `opponent`, `0`
when there are none. -/
def historyAvgPoints (p : Player) (opponent : ℕ) : ℚ :=
  let vs := p.history.filter (fun h => h.1 = opponent)
  if vs.isEmpty then 0 else (vs.map Prod.snd).sum / vs.length

/-- `FPLRecommender.integrate_web_data`.  Returns the neutral `5.0` when
web data is disabled or no aggregator is loaded; otherwise applies, in
source order: injury forcing/halving, expected-starter bonus, mention
bonus, and the final clamp to `[0, 10]`. -/
def integrateWebData (env : Env) (p : Player) : ℚ :=
  match env.use_web_data, env.web_aggregator with
  | true, some agg =>
      let consensus := getPlayerConsensusScore agg p.full_name
      let injury_status := getInjuryStatus agg p.full_name
      let expected_start := isExpectedToStart agg p.full_name
      let ws0 := consensus.consensus_score
      let ws1 :=
        if injury_status = some "out" then 0
        else if injury_status = some "doubtful" then ws0 * (1/2)
        else if injury_status = some "suspended" then 0
        else ws0
      let ws2 :=
        if expected_start ∧ injury_status ≠ some "out" ∧ injury_status ≠ some "suspended"
        then ws1 + 3/2 else ws1
      let ws3 := if consensus.mention_count ≥ 3 then ws2 + 1 else ws2
      max 0 (min 10 ws3)
  | _, _ => 5

/-- `FPLRecommender.calculate_player_score`: the weighted sum of the five
stat sub-scores and, when web integration is active, the web consensus
sub-score, with the two weight columns chosen by
`use_web_data and web_aggregator`. -/
def calculatePlayerScore (env : Env) (p : Player) (next_opponent : Option ℕ) : ℚ :=
  let form_score := if p.form_numeric > 0 then p.form_numeric else 0
  let fixture_diff := calculateFixtureDifficultyScore p
  let fixture_score := (6 - fixture_diff) / 5 * 10
  let historical_score :=
    match next_opponent with
    | some opp => min (historyAvgPoints p opp * (3/2)) 10
    | none => 0
  let points_score := min (p.total_points / 20) 10
  let ict_score := if p.ict_index_numeric > 0 then min (p.ict_index_numeric / 20) 10 else 0
  let web_score := integrateWebData env p
  match env.use_web_data, env.web_aggregator with
  | true, some _ =>
      form_score * (25/100) + fixture_score * (20/100) + historical_score * (15/100) +
        points_score * (12/100) + ict_score * (8/100) + web_score * (20/100)
  | _, _ =>
      form_score * (30/100) + fixture_score * (25/100) + historical_score * (20/100) +
        points_score * (15/100) + ict_score * (10/100)

/-- Insert `x` into a descending-by-`key` list, before the first element
whose key is not larger (so earlier elements stay ahead of equal keys,
matching Python's stable `sort(reverse=True)`). -/
def insertDescBy (key : α → ℚ) (x : α) : List α → List α
  | [] => [x]
  | y :: ys => if key y ≤ key x then x :: y :: ys else y :: insertDescBy key x ys

/-- Stable insertion sort, descending by `key`: model of
`list.sort(key=..., reverse=True)` / `sort_values(ascending=False)`. -/
def sortDescBy (key : α → ℚ) : List α → List α
  | [] => []
  | x :: xs => insertDescBy key x (sortDescBy key xs)

/-- Insert `x` into an ascending-by-`key` list, before the first element
whose key is not smaller. -/
def insertAscBy (key : α → ℚ) (x : α) : List α → List α
  | [] => [x]
  | y :: ys => if key x ≤ key y then x :: y :: ys else y :: insertAscBy key x ys

/-- Stable insertion sort, ascending by `key`: model of
`sort_values(ascending=True)`. -/
def sortAscBy (key : α → ℚ) : List α → List α
  | [] => []
  | x :: xs => insertAscBy key x (sortAscBy key xs)

theorem mem_insertDescBy {key : α → ℚ} {x a : α} {l : List α} :
    a ∈ insertDescBy key x l ↔ a = x ∨ a ∈ l := by
  induction l with
  | nil => simp [insertDescBy]
  | cons y ys ih =>
      by_cases h : key y ≤ key x
      · simp [insertDescBy, h]
      · simp [insertDescBy, h, ih]
        tauto

theorem mem_sortDescBy {key : α → ℚ} {a : α} {l : List α} :
    a ∈ sortDescBy key l ↔ a ∈ l := by
  induction l with
  | nil => simp [sortDescBy]
  | cons x xs ih => simp [sortDescBy, mem_insertDescBy, ih]

theorem mem_insertAscBy {key : α → ℚ} {x a : α} {l : List α} :
    a ∈ insertAscBy key x l ↔ a = x ∨ a ∈ l := by
  induction l with
  | nil => simp [insertAscBy]
  | cons y ys ih =>
      by_cases h : key x ≤ key y
      · simp [insertAscBy, h]
      · simp [insertAscBy, h, ih]
        tauto

theorem mem_sortAscBy {key : α → ℚ} {a : α} {l : List α} :
    a ∈ sortAscBy key l ↔ a ∈ l := by
  induction l with
  | nil => simp [sortAscBy]
  | cons x xs ih => simp [sortAscBy, mem_insertAscBy, ih]

theorem pairwise_insertDescBy {key : α → ℚ} {x : α} {l : List α}
    (h : l.Pairwise (fun a b => key b ≤ key a)) :
    (insertDescBy key x l).Pairwise (fun a b => key b ≤ key a) := by
  induction l with
  | nil => simp [insertDescBy]
  | cons y ys ih =>
      rw [List.pairwise_cons] at h
      by_cases hxy : key y ≤ key x
      · rw [insertDescBy, if_pos hxy, List.pairwise_cons]
        refine ⟨?_, List.pairwise_cons.2 h⟩
        intro a ha
        rcases List.mem_cons.1 ha with rfl | ha
        · exact hxy
        · exact le_trans (h.1 a ha) hxy
      · rw [insertDescBy, if_neg hxy, List.pairwise_cons]
        refine ⟨?_, ih h.2⟩
        intro a ha
        rcases mem_insertDescBy.1 ha with rfl | ha
        · exact le_of_not_le hxy
        · exact h.1 a ha

theorem pairwise_sortDescBy {key : α → ℚ} {l : List α} :
    (sortDescBy key l).Pairwise (fun a b => key b ≤ key a) := by
  induction l with
  | nil => simp [sortDescBy]
  | cons x xs ih => exact pairwise_insertDescBy ih

/-- The head of a descending sort dominates every element of the input. -/
theorem sortDescBy_head_max {key : α → ℚ} {l : List α} {x : α} {rest : List α}
    (h : sortDescBy key l = x :: rest) : ∀ a ∈ l, key a ≤ key x := by
  intro a ha
  have hmem : a ∈ x :: rest := h ▸ mem_sortDescBy.2 ha
  rcases List.mem_cons.1 hmem with rfl | hmem
  · exact le_refl _
  · have hp := @pairwise_sortDescBy _ key l
    rw [h, List.pairwise_cons] at hp
    exact hp.1 a hmem

/-- The dict appended to `transfer_suggestions`.  The source stores the
team column only as a display name (`team_name`); the fields
`out_team_id` / `in_team_id` additionally expose the rows' numeric `team`
column, which the source reads when applying the club constraint. -/
structure TransferSuggestion where
  out_player : String
  out_player_id : ℕ
  out_team : String
  out_team_id : ℕ
  out_price : ℚ
  out_score : ℚ
  out_form : ℚ
  in_player : String
  in_player_id : ℕ
  in_team : String
  in_team_id : ℕ
  in_price : ℚ
  in_score : ℚ
  in_form : ℚ
  position : String
  improvement : ℚ
  cost_diff : ℚ
  web_mentions : ℕ
  web_sentiment : String
deriving DecidableEq, Repr

/-- `current_squad_df['team'].value_counts()` looked up at club `t` with
default `0`: how many current squad members play for club `t`. -/
def teamCount (squad : List Player) (t : ℕ) : ℕ :=
  (squad.filter (fun p => p.team = t)).length

/-- Python truthiness of an optional string argument (`if s:`): `False`
for `None` and for the empty string. -/
def optStrTruthy : Option String → Bool
  | none => false
  | some s => s ≠ ""

/-- The `player_score` column: `calculate_player_score(row, row['next_opponent'])`
with the opponent taken from the gameweek's fixture map. -/
def playerScoreIn (env : Env) (p : Player) : ℚ :=
  calculatePlayerScore env p (teamNextOpponent env.fixtures_gw p.team)

/-- The suggestion dict built inside `suggest_transfers` for an accepted
(out, in) pair, including the web-insight fields. -/
def mkSuggestion (env : Env) (pos : String) (outp inp : Player) : TransferSuggestion :=
  let ws :=
    match env.web_aggregator with
    | some agg =>
        let c := getPlayerConsensusScore agg inp.full_name
        (c.mention_count, c.sentiment)
    | none => (0, "neutral")
  { out_player := outp.full_name
    out_player_id := outp.id
    out_team := outp.team_name
    out_team_id := outp.team
    out_price := outp.value
    out_score := playerScoreIn env outp
    out_form := outp.form_numeric
    in_player := inp.full_name
    in_player_id := inp.id
    in_team := inp.team_name
    in_team_id := inp.team
    in_price := inp.value
    in_score := playerScoreIn env inp
    in_form := inp.form_numeric
    position := pos
    improvement := playerScoreIn env inp - playerScoreIn env outp
    cost_diff := inp.value - outp.value
    web_mentions := ws.1
    web_sentiment := ws.2 }

/-- `FPLRecommender.suggest_transfers`.  `players_df` is the full prepared
dataframe, `squad_ids` the current squad's ids, `budget` the bank.
Mirrors the source: per position, weakest-first squad members, the top 10
affordable replacements, the max-3-per-club check (skipped for same-club
pairs), the strict `> 0.5` improvement threshold, and the final
sort-by-improvement truncated to `num_transfers * 5`. -/
def suggestTransfers (env : Env) (players_df : List Player) (squad_ids : List ℕ)
    (budget : ℚ) (num_transfers : ℕ) (position_filter : Option String) :
    List TransferSuggestion :=
  let current_squad := players_df.filter (fun p => p.id ∈ squad_ids)
  let available0 := players_df.filter (fun p => p.id ∉ squad_ids ∧ p.status = "a")
  let available :=
    if optStrTruthy position_filter
    then available0.filter (fun p => some p.position_name = position_filter)
    else available0
  let suggestions :=
    (["GK", "DEF", "MID", "FWD"].filter (fun pos =>
        !(optStrTruthy position_filter) || decide (position_filter = some pos))).flatMap
      (fun pos =>
        let pos_current := current_squad.filter (fun p => p.position_name = pos)
        let pos_available := available.filter (fun p => p.position_name = pos)
        (sortAscBy (playerScoreIn env) pos_current).flatMap (fun outp =>
          let selling_price := outp.now_cost / 10
          let available_budget := budget + selling_price
          let affordable := pos_available.filter (fun p => p.value ≤ available_budget)
          if affordable.isEmpty then [] else
          ((sortDescBy (playerScoreIn env) affordable).take 10).filterMap (fun inp =>
            if inp.team ≠ outp.team ∧ 3 ≤ teamCount current_squad inp.team then none
            else if 1/2 < playerScoreIn env inp - playerScoreIn env outp then
              some (mkSuggestion env pos outp inp)
            else none)))
  (sortDescBy (fun s => s.improvement) suggestions).take (num_transfers * 5)

/-- The `is_home` dict built from the gameweek fixtures
(`is_home[team_h] = True; is_home[team_a] = False`), later fixtures
overwriting earlier ones; `none` models a team absent from the map
(a `NaN` cell after `.map`). -/
def isHomeLookup : List (ℕ × ℕ) → ℕ → Option Bool
  | [], _ => none
  | (h, a) :: rest, t =>
      match isHomeLookup rest t with
      | some b => some b
      | none => if t = a then some false else if t = h then some true else none

/-- Python truthiness of the `is_home` cell: `NaN` (absent team) is truthy. -/
def pyTruthyOptBool : Option Bool → Bool
  | some b => b
  | none => true

/-- `position_multipliers.get(pos, 1.0)` from `suggest_captain`. -/
def positionMultiplier (pos : String) : ℚ :=
  if pos = "FWD" then 6/5
  else if pos = "MID" then 11/10
  else if pos = "DEF" then 9/10
  else if pos = "GK" then 1/2
  else 1

/-- The captain-specific web sub-score of `suggest_captain`: neutral `5.0`
without an aggregator or with an empty recommendation store; a mention
bonus capped at 10 when captain-type signals match; otherwise the scaled
consensus score when there is any mention. -/
def webCaptainScore (env : Env) (p : Player) : ℚ :=
  match env.web_aggregator with
  | none => 5
  | some agg =>
      if agg.recommendations.isEmpty then 5 else
      let captain_recs := agg.recommendations.filter
        (fun r => ciContains r.player_name p.full_name ∧ r.recommendation_type = "captain")
      if ¬captain_recs.isEmpty then min 10 (7 + captain_recs.length * (3/2))
      else
        let consensus := getPlayerConsensusScore agg p.full_name
        if consensus.mention_count > 0 then min (consensus.consensus_score * (6/5)) 10
        else 5

/-- Whether any captain-type signal matched (`is_web_captain`). -/
def isWebCaptainOf (env : Env) (p : Player) : Bool :=
  match env.web_aggregator with
  | none => false
  | some agg =>
      ¬agg.recommendations.isEmpty ∧
      ¬(agg.recommendations.filter
        (fun r => ciContains r.player_name p.full_name ∧ r.recommendation_type = "captain")).isEmpty

/-- The weighted sum of `suggest_captain` before any modifier:
fixture 40%, form 25%, historical 20%, captaincy web 15%. -/
def captainWeightedScore (env : Env) (p : Player) : ℚ :=
  let fixture_score :=
    match p.fixtures.take 1 with
    | d :: _ => (6 - d) / 5 * 10
    | [] => 5
  let form_score := if p.form_numeric > 0 then p.form_numeric else 0
  let historical_score :=
    match teamNextOpponent env.fixtures_gw p.team with
    | some opp => min (historyAvgPoints p opp * (3/2)) 10
    | none => 0
  fixture_score * (40/100) + form_score * (25/100) + historical_score * (20/100) +
    webCaptainScore env p * (15/100)

/-- The home-advantage bonus (`if player['is_home']: captain_score += 0.5`);
a truthy `NaN` cell also receives it. -/
def captainHomeBonus (env : Env) (p : Player) : ℚ :=
  if pyTruthyOptBool (isHomeLookup env.fixtures_gw p.team) then 1/2 else 0

/-- The composite captain score: weighted sum, then home bonus, then the
position multiplier, then the premium-price bonus, in source order. -/
def captainScoreOf (env : Env) (p : Player) : ℚ :=
  (captainWeightedScore env p + captainHomeBonus env p) * positionMultiplier p.position_name +
    (if p.value ≥ 10 then 1/2 else 0)

/-- One entry of the list built by `suggest_captain` (display-only fields
such as the opponent's short name are omitted). -/
structure CaptainOption where
  player_name : String
  player_id : ℕ
  team : String
  position : String
  price : ℚ
  captain_score : ℚ
  form : ℚ
  is_home : Bool
  fixture_difficulty : ℚ
  expected_points : ℚ
  is_web_captain : Bool
  total_points : ℚ
  selected_by : ℚ
deriving DecidableEq, Repr

/-- The candidate dict `suggest_captain` appends for one squad member. -/
def mkCaptainOption (env : Env) (p : Player) : CaptainOption :=
  let fixture_ease :=
    match p.fixtures.take 1 with
    | d :: _ => (6 - d) / 5
    | [] => 1/2
  { player_name := p.full_name
    player_id := p.id
    team := p.team_name
    position := p.position_name
    price := p.value
    captain_score := captainScoreOf env p
    form := p.form_numeric
    is_home := pyTruthyOptBool (isHomeLookup env.fixtures_gw p.team)
    fixture_difficulty := match p.fixtures.take 1 with | d :: _ => d | [] => 3
    expected_points :=
      p.form_numeric * fixture_ease * positionMultiplier p.position_name * 2
    is_web_captain := isWebCaptainOf env p
    total_points := p.total_points
    selected_by := p.selected_by_percent_numeric }

/-- `FPLRecommender.suggest_captain`: score every squad member, sort
descending by captain score, return the first `top_n`. -/
def suggestCaptain (env : Env) (players_df : List Player) (squad_ids : List ℕ)
    (top_n : ℕ) : List CaptainOption :=
  let squad := players_df.filter (fun p => p.id ∈ squad_ids)
  (sortDescBy (fun o => o.captain_score) (squad.map (mkCaptainOption env))).take top_n

/-- The `vice_score` assigned in `suggest_vice_captain`: the captain score,
scaled by 0.8 for low ownership, plus 0.5 for a high
points-to-form consistency ratio. -/
def viceScore (o : CaptainOption) : ℚ :=
  let base := if o.selected_by < 5 then o.captain_score * (8/10) else o.captain_score
  if o.total_points / max o.form 1 > 15 then base + 1/2 else base

/-- The exclusion filter of `suggest_vice_captain`: drop candidates whose
lower-cased name equals the lower-cased captain choice.  Mirrors
`if captain_choice:` — no filtering for `None` or the empty string. -/
def filterCaptainChoice (options : List CaptainOption) (choice : Option String) :
    List CaptainOption :=
  match choice with
  | none => options
  | some c =>
      if c = "" then options
      else options.filter (fun o => lowerChars o.player_name ≠ lowerChars c)

/-- The tail of `suggest_vice_captain` after the `suggest_captain` call:
filter out the chosen captain, rank by `vice_score`, return the head. -/
def suggestViceCaptainFrom (options : List CaptainOption) (choice : Option String) :
    Option CaptainOption :=
  (sortDescBy viceScore (filterCaptainChoice options choice)).head?

/-- `FPLRecommender.suggest_vice_captain`: re-rank the top-15 captain
candidates. -/
def suggestViceCaptain (env : Env) (players_df : List Player) (squad_ids : List ℕ)
    (choice : Option String) : Option CaptainOption :=
  suggestViceCaptainFrom (suggestCaptain env players_df squad_ids 15) choice

theorem isPrefixOf_eq_true_iff :
    ∀ (l₁ l₂ : List Char), l₁.isPrefixOf l₂ = true ↔ ∃ t, l₂ = l₁ ++ t
  | [], l₂ => by simp [List.isPrefixOf]
  | a :: l₁, [] => by simp [List.isPrefixOf]
  | a :: l₁, b :: l₂ => by
      simp only [List.isPrefixOf, Bool.and_eq_true, beq_iff_eq,
        isPrefixOf_eq_true_iff l₁ l₂, List.cons_append, List.cons.injEq]
      constructor
      · rintro ⟨rfl, t, rfl⟩
        exact ⟨t, rfl, rfl⟩
      · rintro ⟨t, rfl, rfl⟩
        exact ⟨rfl, t, rfl⟩

theorem containsSub_eq_true_iff :
    ∀ (hay needle : List Char), containsSub hay needle = true ↔
      ∃ l r, hay = l ++ needle ++ r
  | [], needle => by
      constructor
      · intro h
        refine ⟨[], [], ?_⟩
        have : needle = [] := by simpa [containsSub, List.isEmpty_iff] using h
        simp [this]
      · rintro ⟨l, r, h⟩
        have : needle = [] := by
          rcases List.append_eq_nil.1 h.symm with ⟨h1, h2⟩
          rcases List.append_eq_nil.1 h1 with ⟨_, h3⟩
          exact h3
        simp [containsSub, this]
  | c :: rest, needle => by
      simp only [containsSub, Bool.or_eq_true, isPrefixOf_eq_true_iff,
        containsSub_eq_true_iff rest needle]
      constructor
      · rintro (⟨t, ht⟩ | ⟨l, r, h⟩)
        · exact ⟨[], t, by simp [ht]⟩
        · exact ⟨c :: l, r, by simp [h]⟩
      · rintro ⟨l, r, h⟩
        match l, h with
        | [], h => exact Or.inl ⟨r, by simpa using h⟩
        | x :: l', h =>
            refine Or.inr ⟨l', r, ?_⟩
            simp only [List.cons_append, List.cons.injEq] at h
            exact h.2

/-- Unconditional description of `get_player_consensus_score`'s numeric
fields: the mention count is the number of matching signals and the score
is the contribution sum over exactly those signals, divided by
`max(mention_count, 1)`. -/
theorem getPlayerConsensusScore_fields (agg : Aggregator) (q : String) :
    (getPlayerConsensusScore agg q).mention_count
      = (agg.recommendations.filter fun r => ciContains r.player_name q).length
    ∧ (getPlayerConsensusScore agg q).consensus_score
      = ((agg.recommendations.filter fun r => ciContains r.player_name q).map
            recContribution).sum
          / (max (agg.recommendations.filter fun r => ciContains r.player_name q).length 1 : ℕ) := by
  unfold getPlayerConsensusScore
  by_cases he : agg.recommendations.isEmpty
  · have : agg.recommendations = [] := List.isEmpty_iff.1 he
    simp [he, this]
  · simp only [he, Bool.false_eq_true, if_false]
    by_cases hf : (agg.recommendations.filter fun r => ciContains r.player_name q).isEmpty
    · have : (agg.recommendations.filter fun r => ciContains r.player_name q) = [] :=
        List.isEmpty_iff.1 hf
      simp [hf, this]
    · simp [hf]

/-- C2: a recommendation store whose only signal matching the query is one
captain-type positive signal yields consensus score 6.0, one mention and a
positive label; in general the consensus score is the sum over matching
signals of `weight(type) * (sentiment_value + 1)` divided by the mention
count, with the fixed weight table captain 3.0, essential 2.5,
transfer 2.0, differential 1.5, general 1.0, budget 1.0, avoid -2.0. -/
theorem consensus_single_captain_and_formula (agg : Aggregator) (q : String) (r : RecSignal)
    (h : (agg.recommendations.filter fun s => ciContains s.player_name q) = [r])
    (ht : r.recommendation_type = "captain") (hs : r.sentiment = "positive") :
    ((getPlayerConsensusScore agg q).consensus_score = 6
      ∧ (getPlayerConsensusScore agg q).mention_count = 1
      ∧ (getPlayerConsensusScore agg q).sentiment = "positive")
    ∧ (∀ (agg2 : Aggregator) (q2 : String),
        0 < (getPlayerConsensusScore agg2 q2).mention_count →
          (getPlayerConsensusScore agg2 q2).consensus_score
            = ((agg2.recommendations.filter fun s => ciContains s.player_name q2).map
                  fun s => typeWeight s.recommendation_type * ((sentimentScore s.sentiment : ℚ) + 1)).sum
                / (getPlayerConsensusScore agg2 q2).mention_count)
    ∧ (typeWeight "captain" = 3 ∧ typeWeight "essential" = 5/2 ∧ typeWeight "transfer" = 2
      ∧ typeWeight "differential" = 3/2 ∧ typeWeight "general" = 1 ∧ typeWeight "budget" = 1
      ∧ typeWeight "avoid" = -2)
    ∧ (sentimentScore "positive" = 1 ∧ sentimentScore "neutral" = 0
      ∧ sentimentScore "negative" = -1) := by
  refine ⟨?_, ?_, by simp [typeWeight], by simp [sentimentScore]⟩
  · have hne : ¬agg.recommendations.isEmpty := by
      intro hcon
      rw [List.isEmpty_iff.1 hcon] at h
      simp at h
    unfold getPlayerConsensusScore
    rw [h]
    simp [hne, recContribution, ht, hs, sentimentScoreOpt, sentimentScore, typeWeight]
    norm_num
  · intro agg2 q2 hpos
    obtain ⟨hc, hs⟩ := getPlayerConsensusScore_fields agg2 q2
    rw [hs, hc]
    rw [hc] at hpos
    have : max (agg2.recommendations.filter fun r => ciContains r.player_name q2).length 1
        = (agg2.recommendations.filter fun r => ciContains r.player_name q2).length :=
      Nat.max_eq_left hpos
    rw [this]
    rfl

/-- Witness for C2 at a one-signal store. -/
theorem consensus_single_captain_and_formula_witness :
    ((getPlayerConsensusScore ⟨[⟨"Haaland", "captain", "positive"⟩], [], []⟩ "Haaland").consensus_score = 6
      ∧ (getPlayerConsensusScore ⟨[⟨"Haaland", "captain", "positive"⟩], [], []⟩ "Haaland").mention_count = 1
      ∧ (getPlayerConsensusScore ⟨[⟨"Haaland", "captain", "positive"⟩], [], []⟩ "Haaland").sentiment = "positive")
    ∧ (∀ (agg2 : Aggregator) (q2 : String),
        0 < (getPlayerConsensusScore agg2 q2).mention_count →
          (getPlayerConsensusScore agg2 q2).consensus_score
            = ((agg2.recommendations.filter fun s => ciContains s.player_name q2).map
                  fun s => typeWeight s.recommendation_type * ((sentimentScore s.sentiment : ℚ) + 1)).sum
                / (getPlayerConsensusScore agg2 q2).mention_count)
    ∧ (typeWeight "captain" = 3 ∧ typeWeight "essential" = 5/2 ∧ typeWeight "transfer" = 2
      ∧ typeWeight "differential" = 3/2 ∧ typeWeight "general" = 1 ∧ typeWeight "budget" = 1
      ∧ typeWeight "avoid" = -2)
    ∧ (sentimentScore "positive" = 1 ∧ sentimentScore "neutral" = 0
      ∧ sentimentScore "negative" = -1) :=
  consensus_single_captain_and_formula ⟨[⟨"Haaland", "captain", "positive"⟩], [], []⟩
    "Haaland" ⟨"Haaland", "captain", "positive"⟩ (by decide) rfl rfl

/-- C7: with no matching recommendation signal (in particular with an empty
store) the consensus record is score 0, mention count 0, neutral label. -/
theorem consensus_no_match_neutral (agg : Aggregator) (q : String)
    (h : (agg.recommendations.filter fun r => ciContains r.player_name q) = []) :
    getPlayerConsensusScore agg q = ⟨0, 0, "neutral", none⟩ := by
  unfold getPlayerConsensusScore
  by_cases he : agg.recommendations.isEmpty
  · simp [he]
  · rw [h]
    simp [he]

/-- Witness for C7: an empty store and a store whose single signal does not
match the query. -/
theorem consensus_no_match_neutral_witness :
    getPlayerConsensusScore ⟨[], [], []⟩ "Salah" = ⟨0, 0, "neutral", none⟩
    ∧ getPlayerConsensusScore ⟨[⟨"Saka", "captain", "positive"⟩], [], []⟩ "Salah"
        = ⟨0, 0, "neutral", none⟩ :=
  ⟨consensus_no_match_neutral ⟨[], [], []⟩ "Salah" (by decide),
   consensus_no_match_neutral ⟨[⟨"Saka", "captain", "positive"⟩], [], []⟩ "Salah" (by decide)⟩

/-- C6: a signal is selected exactly when its stored name contains the
query as a case-insensitive substring (so a stored name that is a proper
substring of a longer query is not selected), the mention count is the
number of selected signals, and the consensus score times
`max(mention_count, 1)` equals the contribution sum over exactly the
selected signals. -/
theorem consensus_selection_substring :
    (∀ hay needle : String,
      ciContains hay needle = true ↔ ∃ l r, lowerChars hay = l ++ lowerChars needle ++ r)
    ∧ (∀ (agg : Aggregator) (q : String),
        (getPlayerConsensusScore agg q).mention_count
          = (agg.recommendations.filter fun r => ciContains r.player_name q).length
        ∧ (getPlayerConsensusScore agg q).consensus_score
              * (max (agg.recommendations.filter fun r => ciContains r.player_name q).length 1 : ℕ)
            = ((agg.recommendations.filter fun r => ciContains r.player_name q).map
                  recContribution).sum)
    ∧ (getPlayerConsensusScore ⟨[⟨"Saka", "transfer", "positive"⟩], [], []⟩
        "Bukayo Saka").mention_count = 0
    ∧ (getPlayerConsensusScore ⟨[⟨"Bukayo Saka", "transfer", "positive"⟩], [], []⟩
        "Saka").mention_count = 1 := by
  refine ⟨fun hay needle => containsSub_eq_true_iff _ _, fun agg q => ?_, by decide, by decide⟩
  obtain ⟨hc, hs⟩ := getPlayerConsensusScore_fields agg q
  refine ⟨hc, ?_⟩
  rw [hs]
  rw [div_mul_cancel₀]
  intro hcon
  have := Nat.le_max_right
    (agg.recommendations.filter fun r => ciContains r.player_name q).length 1
  rw [Nat.cast_eq_zero] at hcon
  omega

/-- C10: a matching signal with a recommendation type outside the seven
listed types contributes with the default weight 1.0, one with a sentiment
outside positive/neutral/negative contributes sentiment value 0 (and is
skipped by the sentiment average); such signals still count toward the
mention count and the function still returns a well-formed record, as the
concrete store with a single unknown-type unknown-sentiment signal shows. -/
theorem consensus_unknown_type_sentiment_defaults :
    (∀ t : String,
      t ∉ (["captain", "essential", "transfer", "differential", "general", "budget",
            "avoid"] : List String) → typeWeight t = 1)
    ∧ (∀ s : String,
        s ∉ (["positive", "neutral", "negative"] : List String) →
          sentimentScore s = 0 ∧ sentimentScoreOpt s = none)
    ∧ getPlayerConsensusScore ⟨[⟨"Mbappe", "wildcard", "mixed"⟩], [], []⟩ "Mbappe"
        = ⟨1, 1, "neutral", none⟩ := by
  refine ⟨?_, ?_, ?_⟩
  · intro t ht
    simp only [List.mem_cons, List.not_mem_nil, or_false, not_or] at ht
    obtain ⟨h1, h2, h3, h4, h5, h6, h7⟩ := ht
    simp [typeWeight, h1, h2, h3, h4, h5, h6, h7]
  · intro s hs
    simp only [List.mem_cons, List.not_mem_nil, or_false, not_or] at hs
    obtain ⟨h1, h2, h3⟩ := hs
    simp [sentimentScore, sentimentScoreOpt, h1, h2, h3]
  · simp +decide [getPlayerConsensusScore, recContribution, typeWeight, sentimentScore,
      sentimentScoreOpt, List.filter_cons, List.filterMap_cons]

/-- Witness for C10 at the unknown type `"wildcard"` and the unknown
sentiment `"mixed"`. -/
theorem consensus_unknown_type_sentiment_defaults_witness :
    typeWeight "wildcard" = 1 ∧ sentimentScore "mixed" = 0 ∧ sentimentScoreOpt "mixed" = none :=
  ⟨consensus_unknown_type_sentiment_defaults.1 "wildcard" (by decide),
   (consensus_unknown_type_sentiment_defaults.2.1 "mixed" (by decide)).1,
   (consensus_unknown_type_sentiment_defaults.2.1 "mixed" (by decide)).2⟩

/-- Aggregator for the C1 counterexample: three matching recommendation
signals and an injury row marking the player out. -/
def aggOutMentions : Aggregator :=
  ⟨[⟨"Xavi", "general", "neutral"⟩, ⟨"Xavi", "general", "neutral"⟩,
    ⟨"Xavi", "general", "neutral"⟩], [⟨"Xavi", "out"⟩], []⟩

/-- Environment for the C1 counterexample: web integration enabled. -/
def envOutMentions : Env := ⟨true, some aggOutMentions, []⟩

/-- Player for the C1 counterexample. -/
def playerOutMentions : Player :=
  { id := 1, full_name := "Xavi", team := 1, team_name := "T", position_name := "MID",
    status := "a", now_cost := 50, form_numeric := 0, total_points := 0,
    ict_index_numeric := 0, selected_by_percent_numeric := 0, fixtures := [], history := [] }

/-- C1 counterexample: a player whose injury status is `"out"` but who has
three matching mentions receives web sub-score 1.0, not 0 — the mention
bonus is applied after the injury forcing. -/
theorem webScore_out_not_zero_counterexample :
    getInjuryStatus aggOutMentions "Xavi" = some "out"
    ∧ (getPlayerConsensusScore aggOutMentions "Xavi").mention_count = 3
    ∧ integrateWebData envOutMentions playerOutMentions = 1
    ∧ integrateWebData envOutMentions playerOutMentions ≠ 0 := by
  refine ⟨by decide, by decide, ?_, ?_⟩ <;>
    simp +decide [integrateWebData, envOutMentions, getInjuryStatus, isExpectedToStart,
      getPlayerConsensusScore, aggOutMentions, playerOutMentions, recContribution,
      typeWeight, sentimentScore, sentimentScoreOpt, List.filter_cons, List.filterMap_cons,
      List.find?]

/-- C1 amended: with web integration enabled, a player whose injury status
is `"out"` or `"suspended"` gets web sub-score exactly 0 — regardless of
consensus score and expected-starter status — provided fewer than 3
signals mention the player; with 3 or more mentions the mention bonus
still applies and the sub-score is exactly 1. -/
theorem webScore_out_forced (env : Env) (agg : Aggregator) (p : Player)
    (hw : env.use_web_data = true) (ha : env.web_aggregator = some agg)
    (hi : getInjuryStatus agg p.full_name = some "out"
        ∨ getInjuryStatus agg p.full_name = some "suspended") :
    integrateWebData env p =
      if 3 ≤ (getPlayerConsensusScore agg p.full_name).mention_count then 1 else 0 := by
  unfold integrateWebData
  rw [hw, ha]
  rcases hi with hi | hi <;>
    by_cases hm : 3 ≤ (getPlayerConsensusScore agg p.full_name).mention_count <;>
      simp [hi, hm]

/-- Witness for C1's amended theorem at the counterexample data (3
mentions, so the sub-score is 1). -/
theorem webScore_out_forced_witness :
    integrateWebData envOutMentions playerOutMentions =
      if 3 ≤ (getPlayerConsensusScore aggOutMentions "Xavi").mention_count then 1 else 0 :=
  webScore_out_forced envOutMentions aggOutMentions playerOutMentions rfl rfl
    (Or.inl (by decide))

/-- C3: with web integration disabled, a player with form 8.0, average
fixture difficulty 2.0 over the next five fixtures, 200 season points,
ICT index 100 and no next opponent scores exactly 6.4 = 32/5
(fixture sub-score 8, points sub-score 10, ICT sub-score 5, weights
0.30/0.25/0.20/0.15/0.10). -/
theorem playerScore_scenario (env : Env) (p : Player)
    (hw : env.use_web_data = false)
    (hf : p.form_numeric = 8)
    (hd : calculateFixtureDifficultyScore p = 2)
    (hp : p.total_points = 200)
    (hi : p.ict_index_numeric = 100) :
    calculatePlayerScore env p none = 32/5 := by
  unfold calculatePlayerScore
  rw [hw, hf, hd, hp, hi]
  norm_num

/-- Player for the C3 witness: five difficulty-2 fixtures. -/
def playerScenario : Player :=
  { id := 7, full_name := "Scenario Player", team := 1, team_name := "T",
    position_name := "MID", status := "a", now_cost := 80, form_numeric := 8,
    total_points := 200, ict_index_numeric := 100, selected_by_percent_numeric := 20,
    fixtures := [2, 2, 2, 2, 2], history := [] }

/-- Witness for C3 at a concrete player with five difficulty-2 fixtures
and a web-disabled environment. -/
theorem playerScore_scenario_witness :
    calculatePlayerScore ⟨false, none, []⟩ playerScenario none = 32/5 :=
  playerScore_scenario ⟨false, none, []⟩ playerScenario rfl rfl
    (by norm_num [calculateFixtureDifficultyScore, playerScenario]) rfl rfl

/-- C4: every suggestion returned by `suggest_transfers` has improvement
strictly greater than 0.5, and the improvement is exactly the incoming
player's score minus the outgoing player's score. -/
theorem suggestTransfers_improvement (env : Env) (players_df : List Player)
    (squad_ids : List ℕ) (budget : ℚ) (num_transfers : ℕ) (pf : Option String)
    (s : TransferSuggestion)
    (hs : s ∈ suggestTransfers env players_df squad_ids budget num_transfers pf) :
    1/2 < s.improvement ∧ s.improvement = s.in_score - s.out_score := by
  unfold suggestTransfers at hs
  have h1 := mem_sortDescBy.1 (List.mem_of_mem_take hs)
  rw [List.mem_flatMap] at h1
  obtain ⟨pos, _, h2⟩ := h1
  rw [List.mem_flatMap] at h2
  obtain ⟨outp, _, h3⟩ := h2
  by_cases hemp : (((if optStrTruthy pf
        then players_df.filter (fun p => p.id ∉ squad_ids ∧ p.status = "a") |>.filter
          (fun p => some p.position_name = pf)
        else players_df.filter (fun p => p.id ∉ squad_ids ∧ p.status = "a")).filter
          (fun p => p.position_name = pos)).filter
        (fun p => p.value ≤ budget + outp.now_cost / 10)).isEmpty
  · rw [if_pos hemp] at h3
    simp at h3
  · rw [if_neg hemp, List.mem_filterMap] at h3
    obtain ⟨inp, _, h4⟩ := h3
    by_cases hc1 : inp.team ≠ outp.team ∧ 3 ≤ teamCount
        (players_df.filter (fun p => p.id ∈ squad_ids)) inp.team
    · rw [if_pos hc1] at h4
      simp at h4
    · rw [if_neg hc1] at h4
      by_cases hc2 : 1/2 < playerScoreIn env inp - playerScoreIn env outp
      · rw [if_pos hc2, Option.some.injEq] at h4
        subst h4
        exact ⟨hc2, rfl⟩
      · rw [if_neg hc2] at h4
        simp at h4

/-- Demo squad members for the transfer claims: three same-club forwards. -/
def pA1 : Player := ⟨1, "Alpha One", 1, "Reds", "FWD", "a", 50, 0, 0, 0, 50, [], []⟩

/-- Second demo squad member. -/
def pA2 : Player := ⟨2, "Alpha Two", 1, "Reds", "FWD", "a", 50, 0, 0, 0, 50, [], []⟩

/-- Third demo squad member. -/
def pA3 : Player := ⟨3, "Alpha Three", 1, "Reds", "FWD", "a", 50, 0, 0, 0, 50, [], []⟩

/-- Demo replacement candidate from the same club, in much better form. -/
def cA : Player := ⟨4, "Alpha Four", 1, "Reds", "FWD", "a", 50, 10, 0, 0, 50, [], []⟩

/-- Web-disabled demo environment with no gameweek fixtures. -/
def envA : Env := ⟨false, none, []⟩

/-- Demo players dataframe. -/
def dfA : List Player := [pA1, pA2, pA3, cA]

/-- Concrete evaluation of `suggestTransfers` on the demo data: each of the
three squad forwards can be upgraded to the same-club candidate. -/
theorem suggestTransfers_demoA_eval :
    suggestTransfers envA dfA [1, 2, 3] 0 1 none
      = [mkSuggestion envA "FWD" pA1 cA, mkSuggestion envA "FWD" pA2 cA,
         mkSuggestion envA "FWD" pA3 cA] := by
  norm_num [suggestTransfers, envA, dfA, optStrTruthy, List.filter_cons,
    List.filterMap_cons, sortAscBy, insertAscBy, sortDescBy, insertDescBy,
    teamCount, playerScoreIn, calculatePlayerScore, calculateFixtureDifficultyScore,
    historyAvgPoints, integrateWebData, teamNextOpponent, Player.value, mkSuggestion,
    pA1, pA2, pA3, cA]

/-- Witness for C4 at the demo data. -/
theorem suggestTransfers_improvement_witness :
    1/2 < (mkSuggestion envA "FWD" pA1 cA).improvement
    ∧ (mkSuggestion envA "FWD" pA1 cA).improvement
        = (mkSuggestion envA "FWD" pA1 cA).in_score - (mkSuggestion envA "FWD" pA1 cA).out_score :=
  suggestTransfers_improvement envA dfA [1, 2, 3] 0 1 none _
    (by rw [suggestTransfers_demoA_eval]; exact List.mem_cons_self _ _)

/-- Demo squad members on three different clubs. -/
def pB1 : Player := ⟨1, "Beta One", 1, "Reds", "FWD", "a", 50, 0, 0, 0, 50, [], []⟩

/-- Second cross-club demo squad member. -/
def pB2 : Player := ⟨2, "Beta Two", 2, "Blues", "FWD", "a", 50, 0, 0, 0, 50, [], []⟩

/-- Third cross-club demo squad member. -/
def pB3 : Player := ⟨3, "Beta Three", 3, "Greens", "FWD", "a", 50, 0, 0, 0, 50, [], []⟩

/-- Cross-club demo replacement candidate (club 2, one incumbent). -/
def cB : Player := ⟨4, "Beta Four", 2, "Blues", "FWD", "a", 50, 10, 0, 0, 50, [], []⟩

/-- Cross-club demo players dataframe. -/
def dfB : List Player := [pB1, pB2, pB3, cB]

/-- Concrete evaluation of `suggestTransfers` on the cross-club demo data. -/
theorem suggestTransfers_demoB_eval :
    suggestTransfers envA dfB [1, 2, 3] 0 1 none
      = [mkSuggestion envA "FWD" pB1 cB, mkSuggestion envA "FWD" pB2 cB,
         mkSuggestion envA "FWD" pB3 cB] := by
  norm_num [suggestTransfers, envA, dfB, optStrTruthy, List.filter_cons,
    List.filterMap_cons, sortAscBy, insertAscBy, sortDescBy, insertDescBy,
    teamCount, playerScoreIn, calculatePlayerScore, calculateFixtureDifficultyScore,
    historyAvgPoints, integrateWebData, teamNextOpponent, Player.value, mkSuggestion,
    pB1, pB2, pB3, cB]

/-- C5: a returned suggestion whose incoming club differs from the
outgoing club only occurs when the incoming club has at most 2 current
squad members (so the transfer cannot push any club above 3); and the
check is skipped for same-club pairs — on the demo squad with three
same-club forwards, a same-club suggestion is returned even though that
club already has 3 squad members. -/
theorem suggestTransfers_club_limit (env : Env) (players_df : List Player)
    (squad_ids : List ℕ) (budget : ℚ) (num_transfers : ℕ) (pf : Option String) :
    (∀ s ∈ suggestTransfers env players_df squad_ids budget num_transfers pf,
        s.in_team_id ≠ s.out_team_id →
          teamCount (players_df.filter fun p => p.id ∈ squad_ids) s.in_team_id + 1 ≤ 3)
    ∧ (∃ s ∈ suggestTransfers envA dfA [1, 2, 3] 0 1 none,
        s.in_team_id = s.out_team_id
        ∧ 3 ≤ teamCount (dfA.filter fun p => p.id ∈ ([1, 2, 3] : List ℕ)) s.in_team_id) := by
  constructor
  · intro s hs hneq
    unfold suggestTransfers at hs
    have h1 := mem_sortDescBy.1 (List.mem_of_mem_take hs)
    rw [List.mem_flatMap] at h1
    obtain ⟨pos, _, h2⟩ := h1
    rw [List.mem_flatMap] at h2
    obtain ⟨outp, _, h3⟩ := h2
    by_cases hemp : (((if optStrTruthy pf
          then players_df.filter (fun p => p.id ∉ squad_ids ∧ p.status = "a") |>.filter
            (fun p => some p.position_name = pf)
          else players_df.filter (fun p => p.id ∉ squad_ids ∧ p.status = "a")).filter
            (fun p => p.position_name = pos)).filter
          (fun p => p.value ≤ budget + outp.now_cost / 10)).isEmpty
    · rw [if_pos hemp] at h3
      simp at h3
    · rw [if_neg hemp, List.mem_filterMap] at h3
      obtain ⟨inp, _, h4⟩ := h3
      by_cases hc1 : inp.team ≠ outp.team ∧ 3 ≤ teamCount
          (players_df.filter (fun p => p.id ∈ squad_ids)) inp.team
      · rw [if_pos hc1] at h4
        simp at h4
      · rw [if_neg hc1] at h4
        by_cases hc2 : 1/2 < playerScoreIn env inp - playerScoreIn env outp
        · rw [if_pos hc2, Option.some.injEq] at h4
          subst h4
          simp only [mkSuggestion] at hneq ⊢
          rw [not_and] at hc1
          have := hc1 hneq
          omega
        · rw [if_neg hc2] at h4
          simp at h4
  · refine ⟨mkSuggestion envA "FWD" pA1 cA, ?_, rfl, by decide⟩
    rw [suggestTransfers_demoA_eval]
    exact List.mem_cons_self _ _

/-- Witness for C5's universal part at the cross-club demo data. -/
theorem suggestTransfers_club_limit_witness :
    teamCount (dfB.filter fun p => p.id ∈ ([1, 2, 3] : List ℕ))
        (mkSuggestion envA "FWD" pB1 cB).in_team_id + 1 ≤ 3 :=
  (suggestTransfers_club_limit envA dfB [1, 2, 3] 0 1 none).1
    (mkSuggestion envA "FWD" pB1 cB)
    (by rw [suggestTransfers_demoB_eval]; exact List.mem_cons_self _ _)
    (by decide)

/-- Goalkeeper for the C8 counterexample: a hard fixture and a strongly
negative record against the next opponent drive the pre-multiplier sum
negative. -/
def pGammaGK : Player := ⟨9, "Gamma", 5, "T", "GK", "a", 50, 0, 0, 0, 50, [5], [(7, -10)]⟩

/-- The identical forward: same player with only the position changed. -/
def pGammaFWD : Player := ⟨9, "Gamma", 5, "T", "FWD", "a", 50, 0, 0, 0, 50, [5], [(7, -10)]⟩

/-- Environment for the C8 counterexample: the player's club plays away
against club 7. -/
def envGamma : Env := ⟨false, none, [(7, 5)]⟩

/-- C8 counterexample: when the pre-multiplier sum is negative, the GK
multiplier 0.5 shrinks the deficit less than the FWD multiplier 1.2, so
the goalkeeper's captain score is strictly HIGHER than the identical
forward's. -/
theorem captain_gk_not_lower_counterexample :
    pGammaFWD = { pGammaGK with position_name := "FWD" }
    ∧ captainScoreOf envGamma pGammaFWD < captainScoreOf envGamma pGammaGK := by
  refine ⟨rfl, ?_⟩
  norm_num [captainScoreOf, captainWeightedScore, captainHomeBonus, webCaptainScore,
    positionMultiplier, historyAvgPoints, teamNextOpponent, isHomeLookup, pyTruthyOptBool,
    Player.value, envGamma, pGammaGK, pGammaFWD, List.filter_cons]
  simp
  norm_num

/-- C8 amended: whenever the common pre-multiplier sum (weighted sum plus
home bonus) is positive, a goalkeeper's captain score is strictly lower
than that of a forward identical in every other input. -/
theorem captain_gk_lower_than_fwd (env : Env) (p : Player)
    (hpos : 0 < captainWeightedScore env p + captainHomeBonus env p) :
    captainScoreOf env { p with position_name := "GK" }
      < captainScoreOf env { p with position_name := "FWD" } := by
  show (captainWeightedScore env p + captainHomeBonus env p) * positionMultiplier "GK"
        + (if p.value ≥ 10 then 1/2 else 0)
      < (captainWeightedScore env p + captainHomeBonus env p) * positionMultiplier "FWD"
        + (if p.value ≥ 10 then 1/2 else 0)
  rw [show positionMultiplier "GK" = 1/2 by simp [positionMultiplier],
    show positionMultiplier "FWD" = 6/5 by simp [positionMultiplier]]
  by_cases hv : p.value ≥ 10 <;> simp [hv] <;> linarith

/-- Witness for C8's amended theorem at a neutral player whose
pre-multiplier sum is 3.25 > 0. -/
theorem captain_gk_lower_than_fwd_witness :
    captainScoreOf envA { pA1 with position_name := "GK" }
      < captainScoreOf envA { pA1 with position_name := "FWD" } :=
  captain_gk_lower_than_fwd envA pA1 (by
    norm_num [captainWeightedScore, captainHomeBonus, webCaptainScore, historyAvgPoints,
      teamNextOpponent, isHomeLookup, pyTruthyOptBool, envA, pA1])

/-- Squad player named like the supplied captain for the C9 witness. -/
def pViceOne : Player := ⟨1, "Vice One", 1, "T", "FWD", "a", 50, 0, 0, 0, 50, [], []⟩

/-- Second squad player for the C9 witness. -/
def pViceTwo : Player := ⟨2, "Vice Two", 1, "T", "FWD", "a", 50, 0, 0, 0, 50, [], []⟩

/-- C9 witness dataframe. -/
def dfVice : List Player := [pViceOne, pViceTwo]

/-- Squad player with an empty name for the C9 counterexample. -/
def pNoName : Player := ⟨1, "", 1, "T", "FWD", "a", 50, 0, 0, 0, 50, [], []⟩

/-- C9 counterexample: with the empty string supplied as captain name the
exclusion filter is skipped (`if captain_choice:` is falsy), so a
candidate whose name is also empty is returned as vice-captain even
though its lower-cased name equals the supplied captain's. -/
theorem vice_equals_captain_counterexample :
    Option.map CaptainOption.player_name (suggestViceCaptain envA [pNoName] [1] (some ""))
      = some "" := by
  simp [suggestViceCaptain, suggestViceCaptainFrom, suggestCaptain, filterCaptainChoice,
    sortDescBy, insertDescBy, pNoName, mkCaptainOption, List.filter_cons]

/-- C9 amended: for every NON-EMPTY supplied captain name, a returned
vice-captain never equals the captain under case-insensitive name
comparison, and it maximizes `vice_score` (captain score, times 0.8 when
ownership is below 5.0, plus 0.5 when season points over `max(form, 1)`
exceed 15) over the surviving candidates. -/
theorem vice_not_captain (env : Env) (players_df : List Player) (squad_ids : List ℕ)
    (c : String) (hc : c ≠ "") (v : CaptainOption)
    (hv : suggestViceCaptain env players_df squad_ids (some c) = some v) :
    lowerChars v.player_name ≠ lowerChars c
    ∧ ∀ o ∈ filterCaptainChoice (suggestCaptain env players_df squad_ids 15) (some c),
        viceScore o ≤ viceScore v := by
  unfold suggestViceCaptain suggestViceCaptainFrom at hv
  obtain ⟨rest, hrest⟩ : ∃ rest,
      sortDescBy viceScore
        (filterCaptainChoice (suggestCaptain env players_df squad_ids 15) (some c))
        = v :: rest := by
    cases h : sortDescBy viceScore
        (filterCaptainChoice (suggestCaptain env players_df squad_ids 15) (some c)) with
    | nil => rw [h] at hv; simp at hv
    | cons x xs =>
        rw [h] at hv
        simp at hv
        exact ⟨xs, by rw [hv]⟩
  constructor
  · have hvmem : v ∈ filterCaptainChoice (suggestCaptain env players_df squad_ids 15)
        (some c) :=
      mem_sortDescBy.1 (by rw [hrest]; exact List.mem_cons_self _ _)
    simp only [filterCaptainChoice, hc, if_false] at hvmem
    have := List.of_mem_filter hvmem
    simpa using this
  · exact sortDescBy_head_max hrest

/-- Witness for C9's amended theorem: with captain "Vice One" the returned
vice is "Vice Two". -/
theorem vice_not_captain_witness :
    lowerChars (mkCaptainOption envA pViceTwo).player_name ≠ lowerChars "Vice One"
    ∧ ∀ o ∈ filterCaptainChoice (suggestCaptain envA dfVice [1, 2] 15) (some "Vice One"),
        viceScore o ≤ viceScore (mkCaptainOption envA pViceTwo) :=
  vice_not_captain envA dfVice [1, 2] "Vice One" (by decide) (mkCaptainOption envA pViceTwo)
    (by
      norm_num [suggestViceCaptain, suggestViceCaptainFrom, suggestCaptain,
        filterCaptainChoice, sortDescBy, insertDescBy, dfVice, mkCaptainOption,
        captainScoreOf, captainWeightedScore, captainHomeBonus, webCaptainScore,
        positionMultiplier, historyAvgPoints, teamNextOpponent, isHomeLookup,
        pyTruthyOptBool, viceScore, Player.value, envA, pViceOne, pViceTwo,
        List.filter_cons])

end FPL
